import Mathlib

/-!
Verification of the quicsilver execution bridge
(`src/ext/quicsilver/quicsilver.c`), a C extension binding the MsQuic
QUIC engine to a Ruby host.  We give a shallow embedding of the
bridge's routing, driving, waiting and lifecycle functions and prove
the specified properties about them.  Machine integers are modelled as
`Nat`/`Int`; fallible native calls are modelled by explicit success
flags; Ruby values are modelled by a small inductive of type tags.
-/

namespace Quicsilver

/-! ## Ruby value model

A Ruby `VALUE` as far as `dispatch_to_ruby` inspects it: it is either
`nil` (`NIL_P`), a plain object instance (`RB_TYPE_P(v, T_OBJECT)`),
a class object (`rb_class_real(CLASS_OF(v)) == rb_cClass`), or
anything else (string, integer, reclaimed slot reused for another
kind, ...). -/
inductive RValue where
  | nil : RValue
  | obj : Nat → RValue
  | cls : Nat → RValue
  | other : Nat → Nat → RValue
deriving DecidableEq, Repr

/-- `rb_class_real(CLASS_OF(v)) == rb_cClass`: holds exactly when `v`
is itself a class object. -/
def isClassVal : RValue → Bool
  | .cls _ => true
  | _ => false

/-- A delivery performed by `dispatch_to_ruby`: either to the
singleton `Quicsilver::Server`'s `handle_stream` (carrying the
two-element connection descriptor `[connection handle, context
pointer]`) or to a client object's `handle_stream_event`. -/
inductive Delivery where
  | server (connData : List Nat) (streamId : Nat) (eventType : String) (payload : List Nat) : Delivery
  | client (ownerId : Nat) (streamId : Nat) (eventType : String) (payload : List Nat) : Delivery
deriving DecidableEq, Repr

/-- Shallow embedding of `dispatch_to_ruby` (quicsilver.c:54-81).
`serverConst` is the value the constant `Quicsilver::Server` resolves
to.  `none` means the event is dropped with no error surfaced. -/
def dispatch_to_ruby (serverConst : RValue) (connection connectionCtx : Nat)
    (clientObj : RValue) (eventType : String) (streamId : Nat)
    (payload : List Nat) : Option Delivery :=
  match clientObj with
  | .nil =>
      if isClassVal serverConst then
        some (.server [connection, connectionCtx] streamId eventType payload)
      else
        none
  | .obj i => some (.client i streamId eventType payload)
  | _ => none

/-! ## Stream receive events (`StreamCallback`, QUIC_STREAM_EVENT_RECEIVE) -/

/-- Little-endian byte serialisation of a machine word, `w` bytes wide:
the embedding of `memcpy(dst, &Stream, sizeof(HQUIC))`. -/
def toBytesLE : Nat → Nat → List Nat
  | 0, _ => []
  | w + 1, n => n % 256 :: toBytesLE w (n / 256)

/-- A dispatched receive-side event: kind string plus payload bytes. -/
structure RecvEvent where
  kind : String
  payload : List Nat
deriving DecidableEq, Repr

/-- Shallow embedding of the `QUIC_STREAM_EVENT_RECEIVE` arm of
`StreamCallback` (quicsilver.c:165-190).  `stream` is the native
stream handle (an 8-byte pointer), `buffers` the event's buffer list,
`fin` whether `QUIC_RECEIVE_FLAG_FIN` is set, `allocOk` whether the
`malloc` of the combined FIN buffer succeeds.  Returns the event
dispatched to Ruby, or `none` when nothing is dispatched. -/
def streamReceiveEvent (stream : Nat) (buffers : List (List Nat))
    (fin allocOk : Bool) : Option RecvEvent :=
  match buffers with
  | [] => none
  | b :: _ =>
      if fin then
        if allocOk then some ⟨"RECEIVE_FIN", toBytesLE 8 stream ++ b⟩ else none
      else
        some ⟨"RECEIVE", b⟩

/-! ## The drive cycle (`quicsilver_poll`) -/

/-- The wait-budget computation of `quicsilver_poll`
(quicsilver.c:114):
`(wait_ms == UINT32_MAX) ? 100 : (wait_ms > 100 ? 100 : wait_ms)`. -/
def actualWait (waitMs : Nat) : Nat :=
  if waitMs = 2 ^ 32 - 1 then 100 else if waitMs > 100 then 100 else waitMs

/-- The completion-firing loop of `quicsilver_poll`
(quicsilver.c:122-129): each ready CQE fires its completion exactly
when its `udata` SQE and `Completion` pointer are non-null.  `cqes`
records, for each ready event, whether that guard holds. -/
def pollCompletionsFired (cqes : List Bool) : Nat :=
  cqes.count true

/-- The value `quicsilver_poll` returns (quicsilver.c:129):
`args.count`, the number of ready events `kevent` reported, regardless
of how many completions the loop actually fired. -/
def pollReturn (cqes : List Bool) : Nat :=
  cqes.length

/-! ## Bridge open / close lifecycle (`quicsilver_open`) -/

/-- The four module-level globals of the bridge.  `msquic` models the
`MsQuic` API table pointer (`true` = non-NULL), `eventq` the
`EventQ` descriptor (`true` = a valid descriptor, `false` = `-1`),
`execCtx` the `ExecContext` pointer, `registration` the
`Registration` handle. -/
structure BridgeState where
  msquic : Bool
  eventq : Bool
  execCtx : Bool
  registration : Bool
deriving DecidableEq, Repr

/-- The globals before any successful `quicsilver_open`. -/
def uninitState : BridgeState :=
  ⟨false, false, false, false⟩

/-- The four resources `quicsilver_open` acquires, in acquisition
order: library table, OS readiness queue (`kqueue`), execution
context, registration. -/
inductive Res where
  | lib : Res
  | readyQ : Res
  | exec : Res
  | reg : Res
deriving DecidableEq, Repr

/-- Outcome of `quicsilver_open`: `ok` models `return Qtrue`,
`raised` models `rb_raise(rb_eRuntimeError, msg)`. -/
inductive OpenResult where
  | ok : OpenResult
  | raised (msg : String) : OpenResult
deriving DecidableEq, Repr

/-- Trace of one `quicsilver_open` call: final globals, outcome, the
resources it acquired and the resources it released, each in the
order the call performed them. -/
structure OpenTrace where
  state : BridgeState
  result : OpenResult
  acquired : List Res
  released : List Res
deriving DecidableEq, Repr

/-- Shallow embedding of `quicsilver_open` (quicsilver.c:335-393).
The four Booleans say whether `MsQuicOpenVersion`, `kqueue`,
`ExecutionCreate` and `RegistrationOpen` succeed.  A failing native
call is modelled as leaving its output parameter (and hence the
corresponding global) untouched, as the code assumes. -/
def quicsilver_open (okLib okQ okExec okReg : Bool) (s : BridgeState) :
    OpenTrace :=
  if s.msquic then
    ⟨s, .ok, [], []⟩
  else if ¬okLib then
    ⟨uninitState, .raised "MsQuicOpenVersion failed", [], []⟩
  else if ¬okQ then
    ⟨uninitState, .raised "Failed to create kqueue for custom execution",
      [.lib], [.lib]⟩
  else if ¬okExec then
    ⟨uninitState, .raised "ExecutionCreate failed",
      [.lib, .readyQ], [.readyQ, .lib]⟩
  else if ¬okReg then
    ⟨uninitState, .raised "RegistrationOpen failed",
      [.lib, .readyQ, .exec], [.exec, .readyQ, .lib]⟩
  else
    ⟨⟨true, true, true, true⟩, .ok, [.lib, .readyQ, .exec, .reg], []⟩

/-! ## Synchronous connection wait (`quicsilver_wait_for_connection`) -/

/-- The fields of a `ConnectionContext` that
`quicsilver_wait_for_connection` reads: the `connected` and `failed`
flags and the recorded error status/code. -/
structure ConnState where
  connected : Bool
  failed : Bool
  errorStatus : Nat
  errorCode : Nat
deriving DecidableEq, Repr

/-- What `quicsilver_wait_for_connection` returns: an empty hash on
success, a hash with `error`/`status`/`code` on failure, a hash with
`timeout` on expiry.  No constructor raises. -/
inductive WaitResult where
  | okEmpty : WaitResult
  | errHash (status code : Nat) : WaitResult
  | timedOutHash : WaitResult
deriving DecidableEq, Repr

/-- The result selection after the wait loop (quicsilver.c:626-639):
`connected` is checked first, then `failed`, else timeout. -/
def waitResultOf (s : ConnState) : WaitResult :=
  if s.connected then .okEmpty
  else if s.failed then .errHash s.errorStatus s.errorCode
  else .timedOutHash

/-- The loop condition of quicsilver.c:621:
`elapsed < timeout && !ctx->connected && !ctx->failed`, where after
`k` iterations `elapsed = 10 * k` and the context holds `f k`. -/
def waitContinue (f : Nat → ConnState) (timeout : Int) (k : Nat) : Prop :=
  10 * (k : Int) < timeout ∧ (f k).connected = false ∧ (f k).failed = false

instance (f : Nat → ConnState) (timeout : Int) (k : Nat) :
    Decidable (waitContinue f timeout k) := by
  unfold waitContinue
  infer_instance

/-- The wait loop of `quicsilver_wait_for_connection`
(quicsilver.c:618-624), fuelled: `f k` is the `ConnectionContext`
snapshot after `k` calls to `poll_inline(10)` (each call drives the
engine and may flip the flags), `f 0` the snapshot at entry.  Returns
the number of `poll_inline` iterations performed and the snapshot the
final result is computed from. -/
def waitLoop (f : Nat → ConnState) (timeout : Int) :
    Nat → Nat → Nat × ConnState
  | 0, k => (k, f k)
  | fuel + 1, k =>
      if waitContinue f timeout k then waitLoop f timeout fuel (k + 1)
      else (k, f k)

/-- The fuel sufficient for the loop: `⌈max(timeout,0) / 10⌉`
iterations, after which `elapsed = 10 * k ≥ timeout` and the loop
condition is false. -/
def waitFuel (timeout : Int) : Nat :=
  ((max timeout 0).toNat + 9) / 10

/-- Shallow embedding of `quicsilver_wait_for_connection`
(quicsilver.c:613-640): number of `poll_inline(10)` iterations
performed, paired with the returned hash. -/
def quicsilver_wait_for_connection (f : Nat → ConnState) (timeout : Int) :
    Nat × WaitResult :=
  let r := waitLoop f timeout (waitFuel timeout) 0
  (r.1, waitResultOf r.2)

/-! ## Connection handle close and GC pinning
(`quicsilver_create_connection` / `quicsilver_close_connection_handle`) -/

/-- The heap cell behind a `ConnectionContext*`, as the close path
reads it.  `allocated` records whether the cell is currently live
(`malloc`ed and not yet `free`d); `clientObjNil` the value of the
`client_obj` field as it sits in memory — `free` does not clear the
memory, so the field remains readable (as stale data) after
deallocation, exactly as in C. -/
structure ConnCtxCell where
  allocated : Bool
  clientObjNil : Bool
deriving DecidableEq, Repr

/-- State threaded through close calls on one connection: the context
cell, the number of `rb_gc_register_address` calls performed for its
`client_obj` (pin acquisitions), the number of
`rb_gc_unregister_address` calls (pin releases), and the number of
`free` calls on the cell. -/
structure PinState where
  cell : ConnCtxCell
  registers : Nat
  unregisters : Nat
  frees : Nat
deriving DecidableEq, Repr

/-- Shallow embedding of the context set-up in
`quicsilver_create_connection` (quicsilver.c:555-570) for a
successful creation: the cell is allocated, `client_obj` stored, and
— when the owner is non-nil — exactly one GC pin registered. -/
def quicsilver_create_connection (clientObjNil : Bool) : PinState :=
  ⟨⟨true, clientObjNil⟩, if clientObjNil then 0 else 1, 0, 0⟩

/-- Shallow embedding of `quicsilver_close_connection_handle`
(quicsilver.c:661-689) acting on one connection's context.
`ctxNull` is whether the context pointer extracted from
`connection_data` is NULL.  The code guards only on pointer nullity:
it re-reads `ctx->client_obj` from the (possibly already freed) cell
and unregisters/frees again on every call with a non-NULL pointer. -/
def quicsilver_close_connection_handle (ctxNull : Bool) (s : PinState) :
    PinState :=
  if ctxNull then s
  else
    { cell := ⟨false, s.cell.clientObjNil⟩
      registers := s.registers
      unregisters := s.unregisters + (if s.cell.clientObjNil then 0 else 1)
      frees := s.frees + 1 }

/-! ## Allocation failure inside native callbacks (`ListenerCallback`,
`ConnectionCallback`, `StreamCallback`) -/

/-- The `QUIC_STATUS` values these callbacks return.  `success` is
`QUIC_STATUS_SUCCESS`; everything else satisfies `QUIC_FAILED`. -/
inductive QStatus where
  | success : QStatus
  | outOfMemory : QStatus
  | other (code : Nat) : QStatus
deriving DecidableEq, Repr

/-- `QUIC_FAILED(s)`: every status other than success. -/
def qFailed : QStatus → Bool
  | .success => false
  | _ => true

/-- Shallow embedding of the `QUIC_LISTENER_EVENT_NEW_CONNECTION` arm
of `ListenerCallback` (quicsilver.c:297-321).  `allocOk` is whether
the `malloc` of the new `ConnectionContext` succeeds, `setConfigOk`
whether `ConnectionSetConfiguration` succeeds (with `failStatus` its
failure status).  Returns the status handed back to the engine and
whether a connection record was left installed. -/
def listenerNewConnection (allocOk setConfigOk : Bool)
    (failStatus : QStatus) : QStatus × Bool :=
  if ¬allocOk then
    (.outOfMemory, false)
  else if ¬setConfigOk then
    (failStatus, false)
  else
    (.success, true)

/-- Shallow embedding of the `QUIC_CONNECTION_EVENT_PEER_STREAM_STARTED`
arm of `ConnectionCallback` (quicsilver.c:262-277): on allocation
failure the stream record is dropped and the callback still returns
success.  Returns the status and whether a stream context was
installed. -/
def connectionPeerStreamStarted (allocOk : Bool) : QStatus × Bool :=
  (.success, allocOk)

/-- The status `StreamCallback` returns for a receive event
(quicsilver.c:155-224): always success, whatever `allocOk` did to the
FIN packing buffer (the event is simply dropped, see
`streamReceiveEvent`). -/
def streamCallbackReceiveStatus (_stream : Nat) (_buffers : List (List Nat))
    (_fin _allocOk : Bool) : QStatus :=
  .success

/-! ## Helper lemmas -/

theorem toBytesLE_length : ∀ w n : Nat, (toBytesLE w n).length = w := by
  intro w
  induction w with
  | zero => intro n; rfl
  | succ m ih =>
      intro n
      simp [toBytesLE, ih]

/-! ## Claim theorems -/

/-- C1: `dispatch_to_ruby` routing.  An event whose logical-owner
reference is absent (nil `client_obj`) is delivered to the singleton
`Quicsilver::Server` handler's `handle_stream` together with the
two-element connection descriptor `[native connection handle,
ConnectionContext pointer]` (provided the `Server` constant is a
class, as the code checks); an event whose owner is present and is a
plain object (`T_OBJECT`) is delivered to that owner's
`handle_stream_event`; an owner of any unexpected kind (here: a class
value or an `other`-tagged value) causes the event to be silently
dropped — `none`, with no error channel in the embedding, matching
the C code which simply falls through. -/
theorem dispatch_to_ruby_routing (k conn ctxp i tag j sid : Nat)
    (et : String) (pl : List Nat) :
    dispatch_to_ruby (.cls k) conn ctxp .nil et sid pl =
      some (.server [conn, ctxp] sid et pl) ∧
    dispatch_to_ruby (.cls k) conn ctxp (.obj i) et sid pl =
      some (.client i sid et pl) ∧
    dispatch_to_ruby (.cls k) conn ctxp (.cls j) et sid pl = none ∧
    dispatch_to_ruby (.cls k) conn ctxp (.other tag j) et sid pl = none := by
  refine ⟨?_, rfl, rfl, rfl⟩
  simp [dispatch_to_ruby, isClassVal]

/-- C2: a receive event with the FIN flag and a non-empty buffer list
dispatches exactly one `RECEIVE_FIN` event whose payload is the
stream's native handle serialised into `sizeof(HQUIC) = 8` bytes
followed by the delivered chunk's bytes (the combined-buffer `malloc`
succeeding); a receive event without FIN dispatches a `RECEIVE` event
carrying the chunk bytes alone, unprefixed. -/
theorem streamReceive_fin_payload_prefixed (stream : Nat) (b : List Nat)
    (rest : List (List Nat)) :
    streamReceiveEvent stream (b :: rest) true true =
      some ⟨"RECEIVE_FIN", toBytesLE 8 stream ++ b⟩ ∧
    (toBytesLE 8 stream).length = 8 ∧
    streamReceiveEvent stream (b :: rest) false true =
      some ⟨"RECEIVE", b⟩ := by
  exact ⟨rfl, toBytesLE_length 8 stream, rfl⟩

/-- C10: only the first buffer of a receive event is ever dispatched
— the result is unchanged when the subsequent buffers are discarded —
and a receive event with an empty buffer list (e.g. a FIN with no
data) dispatches nothing at all. -/
theorem streamReceive_first_buffer_only :
    (∀ (stream : Nat) (b : List Nat) (rest : List (List Nat))
        (fin allocOk : Bool),
      streamReceiveEvent stream (b :: rest) fin allocOk =
        streamReceiveEvent stream [b] fin allocOk) ∧
    (∀ (stream : Nat) (fin allocOk : Bool),
      streamReceiveEvent stream [] fin allocOk = none) := by
  exact ⟨fun _ _ _ _ _ => rfl, fun _ _ _ => rfl⟩

/-- C7: the drive cycle's OS-readiness wait budget equals
`min(wait_ms, 100)` for every engine-reported value, with the bounded
default 100 ms substituted when the engine reports no pending
deadline (`UINT32_MAX`); the wait is therefore never infinite. -/
theorem poll_wait_budget_min :
    (∀ w : Nat, actualWait w = min w 100) ∧
    actualWait (2 ^ 32 - 1) = 100 := by
  constructor
  · intro w
    unfold actualWait
    split_ifs <;> omega
  · rfl

/-- C8 counterexample: a drive cycle in which `kevent` reports one
ready event whose `udata`/`Completion` guard fails returns 1 while
firing zero completions, so the returned value is not the count of
completions fired. -/
theorem poll_return_ne_fired_counterexample :
    pollReturn [false] = 1 ∧ pollCompletionsFired [false] = 0 ∧
    pollReturn [false] ≠ pollCompletionsFired [false] := by
  decide

/-- C8 amended: the drive operation returns the number of ready
events reported by the OS wait, which bounds the count of completions
fired from above and equals it exactly when every ready event carries
a non-null completion. -/
theorem poll_return_counts_ready_events (cqes : List Bool) :
    pollCompletionsFired cqes ≤ pollReturn cqes ∧
    (pollReturn cqes = pollCompletionsFired cqes ↔ ∀ c ∈ cqes, c = true) := by
  constructor
  · exact List.count_le_length true cqes
  · unfold pollReturn pollCompletionsFired
    rw [eq_comm, List.count_eq_length]
    constructor
    · intro h c hc
      exact (h c hc).symm
    · intro h c hc
      exact (h c hc).symm

/-- C9 counterexample: the listener callback's allocation-failure path
does NOT return a success-equivalent status — on `malloc` failure for
the new-connection context it returns `QUIC_STATUS_OUT_OF_MEMORY`, a
failure status, to the engine (quicsilver.c:317-320). -/
theorem listener_alloc_failure_counterexample :
    (listenerNewConnection false true .success).1 = .outOfMemory ∧
    qFailed (listenerNewConnection false true .success).1 = true := by
  decide

/-- C9 amended: allocation failure in the connection callback
(peer-initiated stream context) and in the stream callback (FIN
packing buffer) drops the record/event and returns
`QUIC_STATUS_SUCCESS` to the engine; the listener callback instead
drops the new-connection record and rejects the connection by
returning `QUIC_STATUS_OUT_OF_MEMORY` — a failure status — to the
engine.  No path crashes. -/
theorem callback_alloc_failure_policy (stream : Nat)
    (buffers : List (List Nat)) (fin : Bool) (st : QStatus) :
    connectionPeerStreamStarted false = (.success, false) ∧
    streamCallbackReceiveStatus stream buffers fin false = .success ∧
    streamReceiveEvent stream buffers true false = none ∧
    (listenerNewConnection false true st).1 = .outOfMemory ∧
    (listenerNewConnection false true st).2 = false := by
  refine ⟨rfl, rfl, ?_, rfl, rfl⟩
  cases buffers <;> rfl

/-- C5 (code bug): creating a connection with a non-nil logical owner
registers exactly one GC pin, and the first
`quicsilver_close_connection_handle` on its connection data releases
it exactly once and frees the context.  But a second close on the
same connection data — whose context pointer is unchanged and
non-NULL — performs a SECOND `rb_gc_unregister_address` and a second
`free` on the already-freed cell: double-close is neither rejected
nor a no-op; it is a double pin-release and double-free. -/
theorem close_connection_handle_double_release :
    quicsilver_create_connection false =
      ⟨⟨true, false⟩, 1, 0, 0⟩ ∧
    quicsilver_close_connection_handle false
        (quicsilver_create_connection false) =
      ⟨⟨false, false⟩, 1, 1, 1⟩ ∧
    quicsilver_close_connection_handle false
        (quicsilver_close_connection_handle false
          (quicsilver_create_connection false)) =
      ⟨⟨false, false⟩, 1, 2, 2⟩ := by
  decide

/-- Whether an `OpenResult` models a raised Ruby error. -/
def isRaised : OpenResult → Bool
  | .ok => false
  | .raised _ => true

/-- C3: whenever any step of `quicsilver_open` fails, every resource
acquired by the earlier steps is released in reverse acquisition
order, all four module-level globals are restored to their
uninitialized values, and a Ruby error is raised synchronously to the
caller. -/
theorem open_failure_unwinds (okLib okQ okExec okReg : Bool)
    (h : okLib = false ∨ okQ = false ∨ okExec = false ∨ okReg = false) :
    (quicsilver_open okLib okQ okExec okReg uninitState).state =
      uninitState ∧
    (quicsilver_open okLib okQ okExec okReg uninitState).released =
      (quicsilver_open okLib okQ okExec okReg uninitState).acquired.reverse ∧
    isRaised (quicsilver_open okLib okQ okExec okReg uninitState).result =
      true := by
  cases okLib <;> cases okQ <;> cases okExec <;> cases okReg <;>
    revert h <;> decide

/-- Witness for C3 at a concrete failing step (`ExecutionCreate`
fails): the bridge is fully unwound and an error raised. -/
theorem open_failure_unwinds_witness :
    (true = false ∨ true = false ∨ false = false ∨ true = false) ∧
    ((quicsilver_open true true false true uninitState).state =
        uninitState ∧
      (quicsilver_open true true false true uninitState).released =
        (quicsilver_open true true false true uninitState).acquired.reverse ∧
      isRaised (quicsilver_open true true false true uninitState).result =
        true) :=
  ⟨by decide, open_failure_unwinds true true false true (by decide)⟩

/-- C6: opening the bridge a second time without an intervening close
is idempotent — after a successful open, a second `quicsilver_open`
(whatever its native calls would do) immediately returns success,
acquires no resource, releases no resource, and leaves all globals
exactly as the first open left them. -/
theorem open_twice_idempotent (a b c d a2 b2 c2 d2 : Bool)
    (h : (quicsilver_open a b c d uninitState).result = .ok) :
    quicsilver_open a2 b2 c2 d2
        (quicsilver_open a b c d uninitState).state =
      ⟨(quicsilver_open a b c d uninitState).state, .ok, [], []⟩ := by
  cases a <;> cases b <;> cases c <;> cases d <;>
    simp_all [quicsilver_open, uninitState]

/-- Witness for C6: two successful opens in a row; the second changes
nothing and succeeds. -/
theorem open_twice_idempotent_witness :
    (quicsilver_open true true true true uninitState).result = .ok ∧
    quicsilver_open true true true true
        (quicsilver_open true true true true uninitState).state =
      ⟨(quicsilver_open true true true true uninitState).state,
        .ok, [], []⟩ :=
  ⟨by decide,
    open_twice_idempotent true true true true true true true true
      (by decide)⟩

/-- The wait loop returns the context snapshot at its exit index. -/
theorem waitLoop_snd (f : Nat → ConnState) (T : Int) :
    ∀ fuel k, (waitLoop f T fuel k).2 = f (waitLoop f T fuel k).1 := by
  intro fuel
  induction fuel with
  | zero => intro k; rfl
  | succ n ih =>
      intro k
      unfold waitLoop
      split
      · exact ih (k + 1)
      · rfl

/-- The wait loop performs at most `fuel` further iterations. -/
theorem waitLoop_fst_le (f : Nat → ConnState) (T : Int) :
    ∀ fuel k, (waitLoop f T fuel k).1 ≤ k + fuel := by
  intro fuel
  induction fuel with
  | zero => intro k; simp [waitLoop]
  | succ n ih =>
      intro k
      unfold waitLoop
      split
      · have := ih (k + 1)
        omega
      · omega

/-- The wait loop never runs past an index at which either flag is
set: it exits at or before the first flagged snapshot. -/
theorem waitLoop_exits_at_flag (f : Nat → ConnState) (T : Int) (j : Nat)
    (hj : (f j).connected = true ∨ (f j).failed = true) :
    ∀ fuel k, k ≤ j → (waitLoop f T fuel k).1 ≤ j := by
  intro fuel
  induction fuel with
  | zero => intro k hk; exact hk
  | succ n ih =>
      intro k hk
      unfold waitLoop
      split
      · rename_i hc
        apply ih
        rcases hc with ⟨_, hcon, hfail⟩
        rcases Nat.lt_or_ge k j with h | h
        · omega
        · have hkj : k = j := Nat.le_antisymm hk h
          subst hkj
          rcases hj with h1 | h1
          · rw [h1] at hcon; cases hcon
          · rw [h1] at hfail; cases hfail
      · exact hk

/-- The wait loop, started with fuel `⌈max(T,0)/10⌉`, only exits when
the C loop condition `elapsed < timeout && !connected && !failed` is
false — the fuel never cuts the loop short, so the fuelled embedding
computes exactly the C loop's exit point. -/
theorem waitLoop_exit_condition (f : Nat → ConnState) (T : Int) :
    ¬ waitContinue f T (quicsilver_wait_for_connection f T).1 := by
  have main : ∀ (fuel k : Nat), T ≤ 10 * ((k : Int) + (fuel : Int)) →
      ¬ waitContinue f T (waitLoop f T fuel k).1 := by
    intro fuel
    induction fuel with
    | zero =>
        intro k hk
        simp only [waitLoop]
        intro hcont
        rcases hcont with ⟨hlt, _, _⟩
        omega
    | succ n ih =>
        intro k hk
        unfold waitLoop
        split
        · apply ih
          push_cast
          push_cast at hk
          omega
        · rename_i hc
          exact hc
  have hfuel : T ≤ 10 * ((0 : Int) + waitFuel T) := by
    simp only [waitFuel]
    omega
  exact main (waitFuel T) 0 hfuel

/-- C4: the synchronous connected-wait.  For every flag history `f`
(`f k` is the `ConnectionContext` snapshot after `k` inline drive
calls) and every timeout `T` (milliseconds):
(1) the helper performs at most `⌈max(T,0)/10⌉` bounded 10-ms
`poll_inline` iterations, so it never blocks past that budget;
(2) when neither the connected nor the failed flag is set at any
reachable snapshot, it returns the distinguishable timed-out hash —
and the embedding's result type shows the function raises no error;
(3) it returns as soon as either flag is observed: the exit index
never exceeds any index whose snapshot has a flag set;
(4) when the exit snapshot is connected it returns the empty hash;
(5) when the exit snapshot is failed (and not connected) it returns
the hash carrying the recorded error status and code. -/
theorem wait_for_connection_spec (f : Nat → ConnState) (T : Int) :
    ((quicsilver_wait_for_connection f T).1 ≤
        ((max T 0).toNat + 9) / 10) ∧
    ((∀ j, j ≤ waitFuel T →
        (f j).connected = false ∧ (f j).failed = false) →
      (quicsilver_wait_for_connection f T).2 = .timedOutHash) ∧
    (∀ j, ((f j).connected = true ∨ (f j).failed = true) →
      (quicsilver_wait_for_connection f T).1 ≤ j) ∧
    ((f (quicsilver_wait_for_connection f T).1).connected = true →
      (quicsilver_wait_for_connection f T).2 = .okEmpty) ∧
    ((f (quicsilver_wait_for_connection f T).1).connected = false →
      (f (quicsilver_wait_for_connection f T).1).failed = true →
      (quicsilver_wait_for_connection f T).2 =
        .errHash (f (quicsilver_wait_for_connection f T).1).errorStatus
          (f (quicsilver_wait_for_connection f T).1).errorCode) := by
  have hfst : (quicsilver_wait_for_connection f T).1 =
      (waitLoop f T (waitFuel T) 0).1 := rfl
  have hsnd : (quicsilver_wait_for_connection f T).2 =
      waitResultOf (f (quicsilver_wait_for_connection f T).1) := by
    show waitResultOf (waitLoop f T (waitFuel T) 0).2 = _
    rw [waitLoop_snd]
    rfl
  refine ⟨?_, ?_, ?_, ?_, ?_⟩
  · rw [hfst]
    have := waitLoop_fst_le f T (waitFuel T) 0
    simpa [waitFuel] using this
  · intro hall
    have hle : (quicsilver_wait_for_connection f T).1 ≤ waitFuel T := by
      rw [hfst]
      have := waitLoop_fst_le f T (waitFuel T) 0
      omega
    rcases hall _ hle with ⟨hc, hf⟩
    rw [hsnd]
    simp [waitResultOf, hc, hf]
  · intro j hj
    rw [hfst]
    exact waitLoop_exits_at_flag f T j hj (waitFuel T) 0 (Nat.zero_le j)
  · intro hc
    rw [hsnd]
    simp [waitResultOf, hc]
  · intro hc hf
    rw [hsnd]
    simp [waitResultOf, hc, hf]

/-- Witness for C4: a history whose flags never fire with timeout
25 ms — the helper performs at most `⌈25/10⌉ = 3` iterations and
returns the timed-out hash. -/
theorem wait_for_connection_spec_witness :
    (quicsilver_wait_for_connection (fun _ => ⟨false, false, 0, 0⟩) 25).1 ≤
      ((max (25 : Int) 0).toNat + 9) / 10 ∧
    (quicsilver_wait_for_connection (fun _ => ⟨false, false, 0, 0⟩) 25).2 =
      .timedOutHash :=
  ⟨(wait_for_connection_spec (fun _ => ⟨false, false, 0, 0⟩) 25).1,
    (wait_for_connection_spec (fun _ => ⟨false, false, 0, 0⟩) 25).2.1
      (fun _ _ => ⟨rfl, rfl⟩)⟩

end Quicsilver
